import Mathlib

/-!
Verification of the KIBA procurement wizard client (TypeScript sources under
`src/`).  The definitions below are shallow embeddings of the client-side
logic: the vendor-completeness classifier and decision gate of
`StepCARTEnhanced` (src/unnamed/part_003), the text-parsing heuristics of the
two vendor-search steps, the wizard step state machine of the root `App`
component, the `api.ts` HTTP helpers and the fetch-call configurations.
JavaScript strings are modelled by `String`, numbers by `Nat`/`Rat`,
`undefined`/absent fields by `Option`, and JS truthiness of strings/numbers
explicitly (`""` and `0` are falsy).
-/

set_option maxRecDepth 4000

namespace KIBA

/-! ## Vendor completeness classification (src/unnamed/part_003, `evaluateVendors`)

The classifier collects the missing fields in push order
price, availability, delivery, contact and grades the vendor:

  const overall = missingFields.length === 0 ? 'complete' :
                  missingFields.length <= 2 ? 'partial' : 'missing';
-/

/-- The `missingFields` array built for one scenario of field flags
(`hasPrice`, `hasStock`, `hasDelivery`, `hasContact`), in source push order. -/
def missingFieldsOf (hasPrice hasStock hasDelivery hasContact : Bool) : List String :=
  (if hasPrice then [] else ["price"]) ++
  (if hasStock then [] else ["availability"]) ++
  (if hasDelivery then [] else ["delivery"]) ++
  (if hasContact then [] else ["contact"])

/-- The `overall` grade computed from the `missingFields` list. -/
def overallOf (missingFields : List String) : String :=
  if missingFields.length = 0 then "complete"
  else if missingFields.length ≤ 2 then "partial"
  else "missing"

/-- Completeness record of a vendor evaluation (`VendorEvaluation.completeness`). -/
structure Completeness where
  hasPrice : Bool
  hasStockOrLead : Bool
  hasDeliveryToTarget : Bool
  hasVendorIdentity : Bool
  overall : String
  missingFields : List String
  deriving DecidableEq, Repr

/-- Price detail of a vendor evaluation. -/
structure PriceInfo where
  value : Nat
  currency : String
  sourceText : String
  deriving DecidableEq, Repr

/-- Availability detail of a vendor evaluation. -/
structure AvailabilityInfo where
  inStock : Bool
  leadTimeDays : Nat
  sourceText : String
  deriving DecidableEq, Repr

/-- Delivery detail of a vendor evaluation. -/
structure DeliveryInfo where
  toLocation : String
  promiseDays : Nat
  terms : String
  sourceText : String
  deriving DecidableEq, Repr

/-- Contact detail of a vendor evaluation. -/
structure ContactInfo where
  email : String
  phone : String
  deriving DecidableEq, Repr

/-- One evidence row of a vendor evaluation. -/
structure EvidenceItem where
  label : String
  snippet : String
  deriving DecidableEq, Repr

/-- Random boolean flags attached to a vendor evaluation. -/
structure EvalFlags where
  isOfficialOEM : Bool
  isDistributor : Bool
  isMarketplace : Bool
  possibleMismatch : Bool
  deriving DecidableEq, Repr

/-- A vendor evaluation as produced by `evaluateVendors` in part_003. -/
structure VendorEvaluation where
  vendorName : String
  productTitle : String
  price : Option PriceInfo
  availability : Option AvailabilityInfo
  delivery : Option DeliveryInfo
  warranty : String
  link : String
  domain : String
  contact : Option ContactInfo
  evidence : List EvidenceItem
  lastCheckedAt : String
  score : Nat
  completeness : Completeness
  flags : EvalFlags
  deriving DecidableEq, Repr

/-! ## The decision gate (part_003, `useEffect` deriving `pathRecommendation`)

  if (evaluatedVendors.length > 0) {
    const hasIncompleteVendors = evaluatedVendors.some(v => v.completeness.overall !== 'complete');
    setPathRecommendation(hasIncompleteVendors ? 'rfq' : 'procurement');
  }
-/

/-- The path recommendation the gate stores for a list of evaluated vendors;
`none` models the effect leaving the recommendation unset for an empty list. -/
def pathRecommendation (evaluatedVendors : List VendorEvaluation) : Option String :=
  if evaluatedVendors.length > 0 then
    some (if evaluatedVendors.any (fun v => v.completeness.overall != "complete")
          then "rfq" else "procurement")
  else none

/-- A vendor evaluation is well formed when its grade was produced by the
classifier from its missing-fields list, as `evaluateVendors` guarantees
(`evaluateVendors` builds `overall` from `missingFields.length`). -/
def WellFormedEval (v : VendorEvaluation) : Prop :=
  v.completeness.overall = overallOf v.completeness.missingFields

instance (v : VendorEvaluation) : Decidable (WellFormedEval v) := by
  unfold WellFormedEval; infer_instance

/-- The four field flags are all set exactly when no field is missing. -/
theorem missingFieldsOf_nil_iff :
    ∀ p a d c : Bool, (missingFieldsOf p a d c = [] ↔ (p ∧ a ∧ d ∧ c)) := by
  decide

/-- The grade is `"complete"` exactly when the missing-fields list is empty. -/
theorem overallOf_complete_iff (mf : List String) :
    overallOf mf = "complete" ↔ mf = [] := by
  unfold overallOf
  split_ifs with h1 h2
  · simpa [List.length_eq_zero] using h1
  · constructor
    · intro h; exact absurd h (by decide)
    · intro h; simp [h] at h1
  · constructor
    · intro h; exact absurd h (by decide)
    · intro h; simp [h] at h1

/-- For a well-formed evaluation the grade is `"complete"` exactly when no
field is missing. -/
theorem wellFormed_complete_iff (v : VendorEvaluation) (h : WellFormedEval v) :
    v.completeness.overall = "complete" ↔ v.completeness.missingFields = [] := by
  rw [h]
  exact overallOf_complete_iff _

/-- A concrete fully complete vendor evaluation, used to instantiate theorems. -/
def sampleCompleteEval : VendorEvaluation :=
  { vendorName := "Acme Technologies"
    productTitle := "Network Switch"
    price := some { value := 1200, currency := "USD", sourceText := "Found on product page" }
    availability := some { inStock := true, leadTimeDays := 5, sourceText := "Stock status confirmed" }
    delivery := some { toLocation := "Wichita, KS", promiseDays := 7, terms := "Standard shipping",
                       sourceText := "Delivery promise verified" }
    warranty := "1 year manufacturer warranty"
    link := "https://acme.example"
    domain := "acmetechnologies.com"
    contact := some { email := "sales@acmetechnologies.com", phone := "(555) 123-4567" }
    evidence := []
    lastCheckedAt := "2025-01-01T00:00:00.000Z"
    score := 90
    completeness := { hasPrice := true, hasStockOrLead := true, hasDeliveryToTarget := true,
                      hasVendorIdentity := true, overall := "complete", missingFields := [] }
    flags := { isOfficialOEM := false, isDistributor := false, isMarketplace := false,
               possibleMismatch := false } }

/-- C10: the vendor-completeness classifier maps the four checked fields
deterministically to an overall grade: `"complete"` exactly when zero fields
are missing, `"partial"` exactly when one or two are missing and `"missing"`
exactly when three or four are missing. -/
theorem claim_C10_completeness_grade_partition :
    ∀ p a d c : Bool,
      (overallOf (missingFieldsOf p a d c) = "complete" ↔
        (missingFieldsOf p a d c).length = 0) ∧
      (overallOf (missingFieldsOf p a d c) = "partial" ↔
        ((missingFieldsOf p a d c).length = 1 ∨ (missingFieldsOf p a d c).length = 2)) ∧
      (overallOf (missingFieldsOf p a d c) = "missing" ↔
        ((missingFieldsOf p a d c).length = 3 ∨ (missingFieldsOf p a d c).length = 4)) := by
  decide

/-- C1: the decision gate routes a non-empty cart of well-formed vendor
evaluations to exactly one of the two downstream paths; it picks the
direct-approval path `"procurement"` if and only if every vendor has complete
price, availability, delivery and contact data (no missing field), and routes
to `"rfq"` as soon as at least one vendor is incomplete. -/
theorem claim_C1_decision_gate_routing (evals : List VendorEvaluation)
    (hne : evals ≠ []) (hwf : ∀ v ∈ evals, WellFormedEval v) :
    (pathRecommendation evals = some "procurement" ∨
       pathRecommendation evals = some "rfq") ∧
    ¬(pathRecommendation evals = some "procurement" ∧
       pathRecommendation evals = some "rfq") ∧
    (pathRecommendation evals = some "procurement" ↔
      ∀ v ∈ evals, v.completeness.missingFields = []) ∧
    ((∃ v ∈ evals, ¬ v.completeness.overall = "complete") →
      pathRecommendation evals = some "rfq") := by
  have hlen : evals.length > 0 := List.length_pos.mpr hne
  unfold pathRecommendation
  rw [if_pos hlen]
  by_cases hany : (evals.any (fun v => v.completeness.overall != "complete")) = true
  · rw [if_pos hany]
    have hex : ∃ v ∈ evals, v.completeness.overall ≠ "complete" := by
      rcases List.any_eq_true.mp hany with ⟨v, hv, hb⟩
      exact ⟨v, hv, by simpa using hb⟩
    refine ⟨Or.inr rfl, ?_, ?_, fun _ => rfl⟩
    · rintro ⟨h, _⟩
      exact absurd h (by decide)
    · constructor
      · intro h; exact absurd h (by decide)
      · intro hall
        exfalso
        rcases hex with ⟨v, hv, hbad⟩
        exact hbad ((wellFormed_complete_iff v (hwf v hv)).mpr (hall v hv))
  · rw [if_neg hany]
    have hall : ∀ v ∈ evals, v.completeness.overall = "complete" := by
      intro v hv
      by_contra hne'
      exact hany (List.any_eq_true.mpr ⟨v, hv, by simpa using hne'⟩)
    refine ⟨Or.inl rfl, ?_, ?_, ?_⟩
    · rintro ⟨_, h⟩
      exact absurd h (by decide)
    · exact ⟨fun _ v hv => (wellFormed_complete_iff v (hwf v hv)).mp (hall v hv),
        fun _ => rfl⟩
    · rintro ⟨v, hv, hbad⟩
      exact absurd (hall v hv) hbad

/-- Witness for C1 at a concrete one-vendor cart with complete data: the gate
reports the direct-approval path. -/
theorem claim_C1_decision_gate_routing_witness :
    pathRecommendation [sampleCompleteEval] = some "procurement" :=
  ((claim_C1_decision_gate_routing [sampleCompleteEval] (by decide)
      (by decide)).2.2.1).mpr (by decide)

/-! ## Wizard step state machine (src/frontend-new/src/components/steps/StepSpecifications.tsx,
root `App` component: `STEPS`, `handleNext`, `handleBack`, `jumpToStep`)
-/

/-- One entry of the `STEPS` array. -/
structure StepDef where
  id : Nat
  label : String
  deriving DecidableEq, Repr

/-- The `STEPS` array of the root component. -/
def STEPS : List StepDef :=
  [ { id := 1, label := "Project Context" },
    { id := 2, label := "Product + Industry" },
    { id := 3, label := "AI Follow-up Questions" },
    { id := 4, label := "Project Confirmation" },
    { id := 5, label := "Specifications" },
    { id := 6, label := "Search" },
    { id := 7, label := "RFQ" } ]

/-- The wizard state held by the root component: the current step number and
the list of completed step numbers. -/
structure WizState where
  currentStep : Nat
  completedSteps : List Nat
  deriving DecidableEq, Repr

/-- Initial state: `useState(1)` and `useState<number[]>([])`. -/
def initWizState : WizState := { currentStep := 1, completedSteps := [] }

/-- `handleNext`: record the current step as completed (if not already) and
advance by one unless already at the last step. -/
def handleNext (s : WizState) : WizState :=
  let completed :=
    if s.completedSteps.contains s.currentStep then s.completedSteps
    else s.completedSteps ++ [s.currentStep]
  { currentStep := if s.currentStep < STEPS.length then s.currentStep + 1 else s.currentStep
    completedSteps := completed }

/-- `handleBack`: go back one step unless already at step 1. -/
def handleBack (s : WizState) : WizState :=
  { s with currentStep := if 1 < s.currentStep then s.currentStep - 1 else s.currentStep }

/-- `jumpToStep`: jump only to step 1 or to a step whose predecessor has been
completed. -/
def jumpToStep (step : Nat) (s : WizState) : WizState :=
  if s.completedSteps.contains (step - 1) ∨ step = 1 then
    { s with currentStep := step }
  else s

/-- States reachable from the initial state via the three handlers; the
sidebar invokes `jumpToStep` only with ids of `STEPS` (`jumpToStep(step.id)`). -/
inductive WizReachable : WizState → Prop where
  | init : WizReachable initWizState
  | next {s} : WizReachable s → WizReachable (handleNext s)
  | back {s} : WizReachable s → WizReachable (handleBack s)
  | jump {s} (step : Nat) (hstep : step ∈ STEPS.map StepDef.id) :
      WizReachable s → WizReachable (jumpToStep step s)

/-- Invariant: the current step and all completed steps lie in 1..7. -/
def WizInv (s : WizState) : Prop :=
  (1 ≤ s.currentStep ∧ s.currentStep ≤ STEPS.length) ∧
    ∀ n ∈ s.completedSteps, 1 ≤ n ∧ n ≤ STEPS.length

theorem wizInv_preserved {s : WizState} (h : WizReachable s) : WizInv s := by
  induction h with
  | init => exact ⟨⟨Nat.le_refl 1, by decide⟩, by intro n hn; cases hn⟩
  | next h ih =>
      obtain ⟨⟨h1, h7⟩, hc⟩ := ih
      constructor
      · unfold handleNext
        dsimp only
        split
        · exact ⟨Nat.le_succ_of_le h1, by omega⟩
        · exact ⟨h1, h7⟩
      · intro n hn
        unfold handleNext at hn
        dsimp only at hn
        split at hn
        · exact hc n hn
        · rcases List.mem_append.mp hn with h' | h'
          · exact hc n h'
          · rcases List.mem_singleton.mp h' with rfl
            exact ⟨h1, h7⟩
  | back h ih =>
      obtain ⟨⟨h1, h7⟩, hc⟩ := ih
      refine ⟨?_, hc⟩
      unfold handleBack
      dsimp only
      split
      · omega
      · exact ⟨h1, h7⟩
  | jump step hstep h ih =>
      obtain ⟨⟨h1, h7⟩, hc⟩ := ih
      have hrange : 1 ≤ step ∧ step ≤ STEPS.length := by
        fin_cases hstep <;> simp_all <;> decide
      unfold jumpToStep
      split
      · exact ⟨hrange, hc⟩
      · exact ⟨⟨h1, h7⟩, hc⟩

/-- C4: the wizard is a linear seven-step state machine: every reachable state
has its current step between 1 and 7; `handleNext` advances by exactly one and
never past 7; `handleBack` goes back by exactly one and never below 1; and
`jumpToStep` changes the current step only to step 1 or to a step whose
predecessor has been completed. -/
theorem claim_C4_wizard_state_machine :
    STEPS.length = 7 ∧
    (∀ s, WizReachable s → 1 ≤ s.currentStep ∧ s.currentStep ≤ 7) ∧
    (∀ s, s.currentStep < 7 → (handleNext s).currentStep = s.currentStep + 1) ∧
    (∀ s, s.currentStep ≤ 7 → (handleNext s).currentStep ≤ 7) ∧
    (∀ s, 1 < s.currentStep → (handleBack s).currentStep = s.currentStep - 1) ∧
    (∀ s, 1 ≤ s.currentStep → 1 ≤ (handleBack s).currentStep) ∧
    (∀ s step, (jumpToStep step s).currentStep ≠ s.currentStep →
      (jumpToStep step s).currentStep = step ∧
        (step = 1 ∨ (step - 1) ∈ s.completedSteps)) := by
  refine ⟨rfl, ?_, ?_, ?_, ?_, ?_, ?_⟩
  · intro s hs
    exact (wizInv_preserved hs).1
  · intro s hlt
    unfold handleNext
    simp only
    rw [if_pos (by simpa using hlt)]
  · intro s hle
    have hSL : STEPS.length = 7 := rfl
    unfold handleNext
    simp only
    split
    · omega
    · exact hle
  · intro s hgt
    unfold handleBack
    simp only
    rw [if_pos hgt]
  · intro s hge
    unfold handleBack
    simp only
    split
    · omega
    · exact hge
  · intro s step hchg
    unfold jumpToStep at hchg ⊢
    by_cases hguard : s.completedSteps.contains (step - 1) ∨ step = 1
    · rw [if_pos hguard]
      refine ⟨rfl, ?_⟩
      rcases hguard with h | h
      · exact Or.inr (by simpa using h)
      · exact Or.inl h
    · rw [if_neg hguard] at hchg
      exact absurd rfl hchg

/-- Witness for C4 at concrete states: the invariant at the initial state and
the exact-step behaviour of the three handlers on concrete inputs. -/
theorem claim_C4_wizard_state_machine_witness :
    (1 ≤ initWizState.currentStep ∧ initWizState.currentStep ≤ 7) ∧
    (handleNext { currentStep := 3, completedSteps := [1, 2] }).currentStep = 4 ∧
    (handleBack { currentStep := 3, completedSteps := [1, 2] }).currentStep = 2 ∧
    ((jumpToStep 2 { currentStep := 4, completedSteps := [1, 2, 3] }).currentStep = 2 ∧
      (2 = 1 ∨ (2 - 1) ∈ [1, 2, 3])) :=
  ⟨claim_C4_wizard_state_machine.2.1 initWizState WizReachable.init,
   claim_C4_wizard_state_machine.2.2.1 _ (by decide),
   claim_C4_wizard_state_machine.2.2.2.2.1 _ (by decide),
   claim_C4_wizard_state_machine.2.2.2.2.2.2 _ 2 (by decide)⟩

/-! ## API-call helpers (src/frontend-new/src/lib/api.ts)

Each helper performs `fetch` and, when `!response.ok`, throws an `Error`
built from the response.  A helper is embedded as a function from the HTTP
response to `Except String String`: `.error msg` models the thrown error,
`.ok body` the parsed successful body.
-/

/-- The parts of an HTTP response the helpers inspect. -/
structure HttpResponse where
  ok : Bool
  statusText : String
  bodyText : String
  deriving DecidableEq, Repr

/-- `uploadFiles`. -/
def uploadFilesResult (r : HttpResponse) : Except String String :=
  if r.ok then .ok r.bodyText
  else .error ("File upload failed: " ++ r.statusText)

/-- `analyzeFiles`. -/
def analyzeFilesResult (r : HttpResponse) : Except String String :=
  if r.ok then .ok r.bodyText
  else .error ("File analysis failed: " ++ r.statusText)

/-- `suggestVendors`. -/
def suggestVendorsResult (r : HttpResponse) : Except String String :=
  if r.ok then .ok r.bodyText
  else .error ("Vendor suggestion failed: " ++ r.statusText)

/-- `generateRecommendations`. -/
def generateRecommendationsResult (r : HttpResponse) : Except String String :=
  if r.ok then .ok r.bodyText
  else .error ("Recommendations generation failed: " ++ r.statusText)

/-- `getTokenUsage`: note the thrown message is a fixed string that does not
mention the response's status text. -/
def getTokenUsageResult (r : HttpResponse) : Except String String :=
  if r.ok then .ok r.bodyText
  else .error "Failed to fetch token usage"

/-- `startIntake`: the message also appends the error body text. -/
def startIntakeResult (r : HttpResponse) : Except String String :=
  if r.ok then .ok r.bodyText
  else .error ("Intake failed: " ++ r.statusText ++ " - " ++ r.bodyText)

/-- `submitFollowups`. -/
def submitFollowupsResult (r : HttpResponse) : Except String String :=
  if r.ok then .ok r.bodyText
  else .error ("Follow-up submission failed: " ++ r.statusText ++ " - " ++ r.bodyText)

/-- `getSession`. -/
def getSessionResult (r : HttpResponse) : Except String String :=
  if r.ok then .ok r.bodyText
  else .error ("Failed to fetch session: " ++ r.statusText)

/-- `patchAnswers`. -/
def patchAnswersResult (r : HttpResponse) : Except String String :=
  if r.ok then .ok r.bodyText
  else .error ("Answer update failed: " ++ r.statusText ++ " - " ++ r.bodyText)

/-- `regenerateRecommendations`. -/
def regenerateRecommendationsResult (r : HttpResponse) : Except String String :=
  if r.ok then .ok r.bodyText
  else .error ("Regeneration failed: " ++ r.statusText ++ " - " ++ r.bodyText)

/-- `generateProjectSummary`. -/
def generateProjectSummaryResult (r : HttpResponse) : Except String String :=
  if r.ok then .ok r.bodyText
  else .error ("Project summary generation failed: " ++ r.statusText ++ " - " ++ r.bodyText)

/-- `generateFinalRecommendations`. -/
def generateFinalRecommendationsResult (r : HttpResponse) : Except String String :=
  if r.ok then .ok r.bodyText
  else .error ("Final recommendations generation failed: " ++ r.statusText ++ " - " ++ r.bodyText)

/-- Whether a helper outcome is a raised error. -/
def isError : Except String String → Bool
  | .error _ => true
  | .ok _ => false

/-- The outcome is a raised error whose message contains the given status
text as a substring. -/
def carriesStatus (e : Except String String) (st : String) : Prop :=
  ∃ m, e = Except.error m ∧ st.data <:+: m.data

/-- A helper raises an error exactly on a non-ok response. -/
def RaisesIffNotOk (f : HttpResponse → Except String String) : Prop :=
  ∀ r, isError (f r) = true ↔ r.ok = false

/-- A helper's error message carries the response's status text. -/
def CarriesStatusText (f : HttpResponse → Except String String) : Prop :=
  ∀ r, r.ok = false → carriesStatus (f r) r.statusText

theorem raisesIffNotOk_ite (msg : HttpResponse → String) :
    RaisesIffNotOk (fun r => if r.ok then .ok r.bodyText else .error (msg r)) := by
  intro r
  cases hok : r.ok <;> simp [isError, hok]

theorem data_infix_append_left (a b : String) : b.data <:+: (a ++ b).data :=
  ⟨a.data, [], by simp [String.data_append]⟩

theorem carries_append_left (pre : String) :
    CarriesStatusText (fun r => if r.ok then .ok r.bodyText
      else .error (pre ++ r.statusText)) := by
  intro r hok
  refine ⟨pre ++ r.statusText, ?_, data_infix_append_left _ _⟩
  simp [hok]

theorem carries_append_mid (pre sep : String) :
    CarriesStatusText (fun r => if r.ok then .ok r.bodyText
      else .error (pre ++ r.statusText ++ sep ++ r.bodyText)) := by
  intro r hok
  refine ⟨pre ++ r.statusText ++ sep ++ r.bodyText, ?_,
    ⟨pre.data, sep.data ++ r.bodyText.data, by simp [String.data_append]⟩⟩
  simp [hok]

/-- C3 (amended): every `api.ts` helper raises an error if and only if the
HTTP response is not ok; every helper except `getTokenUsage` includes the
response's status text in the error message, while `getTokenUsage` raises a
fixed message without it. -/
theorem claim_C3_api_error_raising :
    (RaisesIffNotOk uploadFilesResult ∧ CarriesStatusText uploadFilesResult) ∧
    (RaisesIffNotOk analyzeFilesResult ∧ CarriesStatusText analyzeFilesResult) ∧
    (RaisesIffNotOk suggestVendorsResult ∧ CarriesStatusText suggestVendorsResult) ∧
    (RaisesIffNotOk generateRecommendationsResult ∧
      CarriesStatusText generateRecommendationsResult) ∧
    (RaisesIffNotOk startIntakeResult ∧ CarriesStatusText startIntakeResult) ∧
    (RaisesIffNotOk submitFollowupsResult ∧ CarriesStatusText submitFollowupsResult) ∧
    (RaisesIffNotOk getSessionResult ∧ CarriesStatusText getSessionResult) ∧
    (RaisesIffNotOk patchAnswersResult ∧ CarriesStatusText patchAnswersResult) ∧
    (RaisesIffNotOk regenerateRecommendationsResult ∧
      CarriesStatusText regenerateRecommendationsResult) ∧
    (RaisesIffNotOk generateProjectSummaryResult ∧
      CarriesStatusText generateProjectSummaryResult) ∧
    (RaisesIffNotOk generateFinalRecommendationsResult ∧
      CarriesStatusText generateFinalRecommendationsResult) ∧
    (RaisesIffNotOk getTokenUsageResult ∧
      ∀ r, r.ok = false →
        getTokenUsageResult r = Except.error "Failed to fetch token usage") :=
  ⟨⟨raisesIffNotOk_ite _, carries_append_left _⟩,
   ⟨raisesIffNotOk_ite _, carries_append_left _⟩,
   ⟨raisesIffNotOk_ite _, carries_append_left _⟩,
   ⟨raisesIffNotOk_ite _, carries_append_left _⟩,
   ⟨raisesIffNotOk_ite _, carries_append_mid _ _⟩,
   ⟨raisesIffNotOk_ite _, carries_append_mid _ _⟩,
   ⟨raisesIffNotOk_ite _, carries_append_left _⟩,
   ⟨raisesIffNotOk_ite _, carries_append_mid _ _⟩,
   ⟨raisesIffNotOk_ite _, carries_append_mid _ _⟩,
   ⟨raisesIffNotOk_ite _, carries_append_mid _ _⟩,
   ⟨raisesIffNotOk_ite _, carries_append_mid _ _⟩,
   ⟨raisesIffNotOk_ite _, fun r hok => by simp [getTokenUsageResult, hok]⟩⟩

/-- Witness for C3 (amended) at a concrete failed response: `startIntake`
raises and its message carries the status text. -/
theorem claim_C3_api_error_raising_witness :
    carriesStatus (startIntakeResult ⟨false, "Bad Gateway", "detail"⟩) "Bad Gateway" :=
  claim_C3_api_error_raising.2.2.2.2.1.2 ⟨false, "Bad Gateway", "detail"⟩ rfl

/-- Counterexample to C3 as stated: on a failed response, `getTokenUsage`
raises an error whose message does not carry the response's status text. -/
theorem claim_C3_counterexample :
    getTokenUsageResult ⟨false, "Service Unavailable", ""⟩ =
        Except.error "Failed to fetch token usage" ∧
      ¬ ("Service Unavailable".data <:+: "Failed to fetch token usage".data) :=
  ⟨rfl, by decide⟩

/-! ## Fetch-call configurations (C5)

Each `fetch` call site in the client, with whether an `AbortSignal` is passed
and whether a client-side timeout aborts it.
-/

/-- Configuration of one `fetch` call site. -/
structure FetchCall where
  endpoint : String
  method : String
  hasAbortSignal : Bool
  timeoutMs : Option Nat
  deriving DecidableEq, Repr

/-- `uploadFiles` (api.ts): plain fetch, no signal, no timeout. -/
def uploadFilesFetch : FetchCall :=
  ⟨"/api/files/upload", "POST", false, none⟩

/-- `analyzeFiles` (api.ts). -/
def analyzeFilesFetch : FetchCall :=
  ⟨"/api/files/analyze", "POST", false, none⟩

/-- `suggestVendors` (api.ts). -/
def suggestVendorsFetch : FetchCall :=
  ⟨"/api/suggest-vendors", "POST", false, none⟩

/-- `generateRecommendations` (api.ts). -/
def generateRecommendationsFetch : FetchCall :=
  ⟨"/api/generate_recommendations", "POST", false, none⟩

/-- `getTokenUsage` (api.ts). -/
def getTokenUsageFetch : FetchCall :=
  ⟨"/api/token-usage", "GET", false, none⟩

/-- `startIntake` (api.ts). -/
def startIntakeFetch : FetchCall :=
  ⟨"/api/intake_recommendations", "POST", false, none⟩

/-- `submitFollowups` (api.ts). -/
def submitFollowupsFetch : FetchCall :=
  ⟨"/api/submit_followups", "POST", false, none⟩

/-- `getSession` (api.ts). -/
def getSessionFetch : FetchCall :=
  ⟨"/api/session/{sessionId}", "GET", false, none⟩

/-- `patchAnswers` (api.ts). -/
def patchAnswersFetch : FetchCall :=
  ⟨"/api/session/{sessionId}/answers", "PATCH", false, none⟩

/-- `regenerateRecommendations` (api.ts). -/
def regenerateRecommendationsFetch : FetchCall :=
  ⟨"/api/session/{sessionId}/regenerate", "POST", false, none⟩

/-- `generateProjectSummary` (api.ts). -/
def generateProjectSummaryFetch : FetchCall :=
  ⟨"/api/session/{sessionId}/generate_summary", "POST", false, none⟩

/-- `generateFinalRecommendations` (api.ts). -/
def generateFinalRecommendationsFetch : FetchCall :=
  ⟨"/api/session/{sessionId}/generate_recommendations", "POST", false, none⟩

/-- The twelve `api.ts` helper fetch sites. -/
def apiHelperFetches : List FetchCall :=
  [uploadFilesFetch, analyzeFilesFetch, suggestVendorsFetch,
   generateRecommendationsFetch, getTokenUsageFetch, startIntakeFetch,
   submitFollowupsFetch, getSessionFetch, patchAnswersFetch,
   regenerateRecommendationsFetch, generateProjectSummaryFetch,
   generateFinalRecommendationsFetch]

/-- `performWebSearch` (src/unnamed/part_001 and part_002): an
`AbortController` whose signal is passed to fetch, aborted by a 240000 ms
`setTimeout`. -/
def performWebSearchFetch : FetchCall :=
  ⟨"/api/web_search", "POST", true, some 240000⟩

/-- `buildSearchQuery` (src/unnamed/part_001): plain fetch. -/
def buildSearchQueryFetch : FetchCall :=
  ⟨"/api/search-query/build", "POST", false, none⟩

/-- `generateRFQ` (src/unnamed/part_000): plain fetch. -/
def generateRFQFetch : FetchCall :=
  ⟨"/api/rfq/generate", "POST", false, none⟩

/-- `performEnhancedSearch` (StepVendorSearch.tsx): passes an abort signal to
`findVendors` for manual cancellation but sets no timeout. -/
def performEnhancedSearchFetch : FetchCall :=
  ⟨"findVendors", "POST", true, none⟩

/-- Counterexample to C5 as stated: the `startIntake` backend call is issued
with no abort signal and no client-side timeout. -/
theorem claim_C5_counterexample :
    startIntakeFetch.hasAbortSignal = false ∧ startIntakeFetch.timeoutMs = none :=
  ⟨rfl, rfl⟩

/-- C5 (amended): only the vendor web-search call is issued with both an
abort signal and a client-side timeout (240 s); the enhanced-search call
passes an abort signal but no timeout; all twelve `api.ts` helper fetches,
the RFQ-generation fetch and the search-query-build fetch are plain fetches
with neither an abort signal nor a timeout. -/
theorem claim_C5_fetch_timeouts :
    (performWebSearchFetch.hasAbortSignal = true ∧
      performWebSearchFetch.timeoutMs = some 240000) ∧
    (performEnhancedSearchFetch.hasAbortSignal = true ∧
      performEnhancedSearchFetch.timeoutMs = none) ∧
    (∀ c ∈ apiHelperFetches, c.hasAbortSignal = false ∧ c.timeoutMs = none) ∧
    (generateRFQFetch.hasAbortSignal = false ∧ generateRFQFetch.timeoutMs = none) ∧
    (buildSearchQueryFetch.hasAbortSignal = false ∧
      buildSearchQueryFetch.timeoutMs = none) := by
  refine ⟨⟨rfl, rfl⟩, ⟨rfl, rfl⟩, ?_, ⟨rfl, rfl⟩, ⟨rfl, rfl⟩⟩
  decide

/-- Witness for C5 (amended): the membership hypothesis discharged at the
concrete `uploadFiles` fetch site. -/
theorem claim_C5_fetch_timeouts_witness :
    uploadFilesFetch.hasAbortSignal = false ∧ uploadFilesFetch.timeoutMs = none :=
  claim_C5_fetch_timeouts.2.2.1 uploadFilesFetch (by decide)

/-! ## Vendor parsing from prose (src/unnamed/part_001, `parseVendorsFromText`)

The parser walks the input line by line and dispatches each trimmed non-empty
line on the first matching regular expression, in source order:

  1. `/^[A-Z][a-zA-Z\s&]+(?:Inc|Corp|LLC|Ltd|Company|Technologies|Systems|Solutions|Group)$/`
  2. `/\$[\d,]+(?:\.\d{2})?(?:\s*-\s*\$[\d,]+(?:\.\d{2})?)?/`
  3. `/https?:\/\/[^\s]+/`
  4. `/\d+(?:\.\d+)?\s*\/\s*5|★\s*\d+(?:\.\d+)?/`
  5. `/\d+\s*(?:days?|weeks?|months?)/i`
  6. otherwise, lines longer than 10 characters are appended to the
     description.

The regexes are embedded as executable matchers on `List Char`.
-/

/-- JavaScript `\s` on the characters that can occur in a line. -/
def jsWhitespace (c : Char) : Bool :=
  c == ' ' || c == '\t' || c == '\n' || c == '\r' || c == '\x0b' || c == '\x0c'

/-- The alternatives of the corporate-suffix group of regex 1. -/
def nameSuffixes : List String :=
  ["Inc", "Corp", "LLC", "Ltd", "Company", "Technologies", "Systems",
   "Solutions", "Group"]

/-- The character class `[a-zA-Z\s&]` of regex 1. -/
def isNameClassChar (c : Char) : Bool :=
  c.isAlpha || jsWhitespace c || c == '&'

/-- Whole-line match of regex 1: an uppercase letter, then at least one
class character, then one of the corporate suffixes, anchored at both ends. -/
def matchesCompanyName (s : String) : Bool :=
  nameSuffixes.any fun suf =>
    suf.data.isSuffixOf s.data &&
      (match s.data.take (s.data.length - suf.data.length) with
       | c :: rest => c.isUpper && !rest.isEmpty && rest.all isNameClassChar
       | [] => false)

/-- Search match of regex 2: it succeeds exactly when a `$` immediately
followed by a digit or comma occurs somewhere in the line (the remaining
parts of the regex are optional). -/
def priceScan : List Char → Bool
  | '$' :: c :: rest => c.isDigit || c == ',' || priceScan (c :: rest)
  | _ :: rest => priceScan rest
  | [] => false

/-- Line contains a dollar amount (regex 2). -/
def matchesPrice (s : String) : Bool := priceScan s.data

/-- `http://` or `https://` followed by at least one non-whitespace character
starts at the head of the list. -/
def startsWithUrl (l : List Char) : Bool :=
  ("http://".data.isPrefixOf l &&
    (match (l.drop 7).head? with | some c => !jsWhitespace c | none => false)) ||
  ("https://".data.isPrefixOf l &&
    (match (l.drop 8).head? with | some c => !jsWhitespace c | none => false))

/-- Search match of regex 3. -/
def urlScan : List Char → Bool
  | [] => false
  | c :: rest => startsWithUrl (c :: rest) || urlScan rest

/-- Line contains an http(s) URL (regex 3). -/
def matchesUrl (s : String) : Bool := urlScan s.data

/-- After optional whitespace, a `/`, optional whitespace and the digit `5`. -/
def slashFiveCheck (r : List Char) : Bool :=
  match r.dropWhile jsWhitespace with
  | '/' :: r' => (r'.dropWhile jsWhitespace).head? == some '5'
  | _ => false

/-- First alternative of regex 4 matching at the head: `\d+(?:\.\d+)?\s*\/\s*5`. -/
def ratingAlt1 (l : List Char) : Bool :=
  let ds := l.takeWhile Char.isDigit
  let r1 := l.dropWhile Char.isDigit
  !ds.isEmpty &&
    (slashFiveCheck r1 ||
      (match r1 with
       | '.' :: r2 =>
           !(r2.takeWhile Char.isDigit).isEmpty &&
             slashFiveCheck (r2.dropWhile Char.isDigit)
       | _ => false))

/-- Second alternative of regex 4 matching at the head: `★\s*\d+(?:\.\d+)?`. -/
def ratingAlt2 (l : List Char) : Bool :=
  match l with
  | '★' :: r =>
      (match (r.dropWhile jsWhitespace).head? with
       | some c => c.isDigit
       | none => false)
  | _ => false

/-- Search match of regex 4. -/
def ratingScan : List Char → Bool
  | [] => false
  | c :: rest => ratingAlt1 (c :: rest) || ratingAlt2 (c :: rest) || ratingScan rest

/-- Line contains a rating pattern (regex 4). -/
def matchesRating (s : String) : Bool := ratingScan s.data

/-- Numeric value of a digit run. -/
def digitsToNat (l : List Char) : Nat :=
  l.foldl (fun acc c => acc * 10 + (c.toNat - '0'.toNat)) 0

/-- `parseFloat` of a number starting at the head of the list
(`\d+(?:\.\d+)?`). -/
def parseNumAt (l : List Char) : ℚ :=
  let ds := l.takeWhile Char.isDigit
  let r1 := l.dropWhile Char.isDigit
  let intPart : ℚ := digitsToNat ds
  match r1 with
  | '.' :: r2 =>
      let fs := r2.takeWhile Char.isDigit
      if fs.isEmpty then intPart
      else intPart + (digitsToNat fs : ℚ) / ((10 : ℚ) ^ fs.length)
  | _ => intPart

/-- `trimmedLine.match(/(\d+(?:\.\d+)?)/)` followed by `parseFloat`: the first
number occurring in the line, if any. -/
def firstNumber : List Char → Option ℚ
  | [] => none
  | c :: rest => if c.isDigit then some (parseNumAt (c :: rest)) else firstNumber rest

/-- Case-insensitive literal prefix test. -/
def ciStarts (pat : String) (l : List Char) : Bool :=
  pat.data.isPrefixOf (l.map Char.toLower)

/-- First alternative position of regex 5 matching at the head:
`\d+\s*(?:days?|weeks?|months?)` case-insensitively (the optional `s` never
decides a match). -/
def deliveryAt (l : List Char) : Bool :=
  let ds := l.takeWhile Char.isDigit
  let r := (l.dropWhile Char.isDigit).dropWhile jsWhitespace
  !ds.isEmpty && (ciStarts "day" r || ciStarts "week" r || ciStarts "month" r)

/-- Search match of regex 5. -/
def deliveryScan : List Char → Bool
  | [] => false
  | c :: rest => deliveryAt (c :: rest) || deliveryScan rest

/-- Line contains a delivery-time pattern (regex 5). -/
def matchesDelivery (s : String) : Bool := deliveryScan s.data

/-- JavaScript `String.prototype.trim`: strip `\s` characters from both ends. -/
def jsTrim (s : String) : String :=
  ⟨((s.data.dropWhile jsWhitespace).reverse.dropWhile jsWhitespace).reverse⟩

/-- Split a character list at every occurrence of a separator character. -/
def splitOnChar (sep : Char) : List Char → List (List Char)
  | [] => [[]]
  | x :: rest =>
      match splitOnChar sep rest with
      | ys :: yss => if x == sep then [] :: ys :: yss else (x :: ys) :: yss
      | [] => [[]]

/-- JavaScript `text.split('\n')`. -/
def splitLines (s : String) : List String :=
  (splitOnChar '\n' s.data).map fun l => ⟨l⟩

/-- A vendor record returned by `parseVendorsFromText`. -/
structure PVendor where
  id : String
  name : String
  price : Option String
  website : Option String
  rating : Option ℚ
  deliveryTime : Option String
  description : Option String
  deriving DecidableEq, Repr

/-- The in-progress `currentVendor` object (all fields optional). -/
structure PartialVendor where
  name : Option String := none
  price : Option String := none
  website : Option String := none
  rating : Option ℚ := none
  deliveryTime : Option String := none
  description : Option String := none
  deriving DecidableEq, Repr

/-- The loop state: the current partial vendor, the vendors pushed so far and
the next `vendorId`. -/
structure ParseState where
  current : PartialVendor
  acc : List PVendor
  nextId : Nat
  deriving DecidableEq, Repr

/-- Initial loop state: `currentVendor = {}`, `vendors = []`, `vendorId = 1`. -/
def initParseState : ParseState := { current := {}, acc := [], nextId := 1 }

/-- `if (currentVendor.name) vendors.push({ ...currentVendor, id: ... })`. -/
def pushIfNamed (st : ParseState) : ParseState :=
  match st.current.name with
  | some n =>
      { st with
        acc := st.acc ++
          [{ id := "vendor-" ++ toString st.nextId, name := n,
             price := st.current.price, website := st.current.website,
             rating := st.current.rating, deliveryTime := st.current.deliveryTime,
             description := st.current.description }],
        nextId := st.nextId + 1 }
  | none => st

/-- Processing of one line of the input, dispatching the trimmed line on the
first matching pattern. -/
def lineStep (st : ParseState) (line : String) : ParseState :=
  if jsTrim line = "" then st
  else if matchesCompanyName (jsTrim line) then
    { pushIfNamed st with current := { name := some (jsTrim line) } }
  else if matchesPrice (jsTrim line) then
    { st with current := { st.current with price := some (jsTrim line) } }
  else if matchesUrl (jsTrim line) then
    { st with current := { st.current with website := some (jsTrim line) } }
  else if matchesRating (jsTrim line) then
    { st with current := { st.current with
        rating := match firstNumber (jsTrim line).data with
          | some q => some q
          | none => st.current.rating } }
  else if matchesDelivery (jsTrim line) then
    { st with current := { st.current with deliveryTime := some (jsTrim line) } }
  else if 10 < (jsTrim line).length then
    { st with current := { st.current with
        description := some ((st.current.description.getD "") ++ " " ++ jsTrim line) } }
  else st

/-- `parseVendorsFromText`: fold the line dispatcher over the lines of the
input and push the last named vendor. -/
def parseVendorsFromText (text : String) : List PVendor :=
  (pushIfNamed ((splitLines text).foldl lineStep initParseState)).acc

example : matchesCompanyName "Acme Inc" = true := by decide
example : matchesCompanyName "$100" = false := by decide
example : matchesPrice "$1,200.50 - $1,500.00" = true := by decide
example : matchesUrl "see https://acme.example/x" = true := by decide
example : matchesRating "4.5 / 5" = true := by decide
example : matchesRating "★ 4" = true := by decide

theorem pushIfNamed_acc_names {st : ParseState}
    (h1 : ∀ v ∈ st.acc, matchesCompanyName v.name = true)
    (h2 : ∀ n, st.current.name = some n → matchesCompanyName n = true) :
    ∀ v ∈ (pushIfNamed st).acc, matchesCompanyName v.name = true := by
  unfold pushIfNamed
  cases hcn : st.current.name with
  | none => exact h1
  | some n =>
      intro v hv
      simp only [List.mem_append, List.mem_singleton] at hv
      rcases hv with hv | rfl
      · exact h1 v hv
      · exact h2 n hcn

theorem lineStep_name_invariant (st : ParseState) (line : String)
    (h1 : ∀ v ∈ st.acc, matchesCompanyName v.name = true)
    (h2 : ∀ n, st.current.name = some n → matchesCompanyName n = true) :
    (∀ v ∈ (lineStep st line).acc, matchesCompanyName v.name = true) ∧
    (∀ n, (lineStep st line).current.name = some n → matchesCompanyName n = true) := by
  unfold lineStep
  split_ifs with ht hname hprice hurl hrating hdeliv hlen
  · exact ⟨h1, h2⟩
  · refine ⟨pushIfNamed_acc_names h1 h2, ?_⟩
    intro n hn
    simp only at hn
    cases hn
    exact hname
  all_goals exact ⟨h1, h2⟩

theorem foldl_lineStep_name_invariant (lines : List String) (st : ParseState)
    (h1 : ∀ v ∈ st.acc, matchesCompanyName v.name = true)
    (h2 : ∀ n, st.current.name = some n → matchesCompanyName n = true) :
    (∀ v ∈ (lines.foldl lineStep st).acc, matchesCompanyName v.name = true) ∧
    (∀ n, (lines.foldl lineStep st).current.name = some n →
      matchesCompanyName n = true) := by
  induction lines generalizing st with
  | nil => exact ⟨h1, h2⟩
  | cons l ls ih =>
      obtain ⟨g1, g2⟩ := lineStep_name_invariant st l h1 h2
      exact ih (lineStep st l) g1 g2

theorem lineStep_no_name (st : ParseState) (line : String)
    (h : matchesCompanyName (jsTrim line) = false) :
    (lineStep st line).acc = st.acc ∧
      (lineStep st line).current.name = st.current.name := by
  unfold lineStep
  split_ifs with ht hname hprice hurl hrating hdeliv hlen
  · exact ⟨rfl, rfl⟩
  · rw [h] at hname; cases hname
  all_goals exact ⟨rfl, rfl⟩

theorem foldl_lineStep_no_name (lines : List String) (st : ParseState)
    (h : ∀ line ∈ lines, matchesCompanyName (jsTrim line) = false) :
    (lines.foldl lineStep st).acc = st.acc ∧
      (lines.foldl lineStep st).current.name = st.current.name := by
  induction lines generalizing st with
  | nil => exact ⟨rfl, rfl⟩
  | cons l ls ih =>
      obtain ⟨g1, g2⟩ := lineStep_no_name st l (h l (List.mem_cons_self l ls))
      obtain ⟨g1', g2'⟩ := ih (lineStep st l) (fun x hx => h x (List.mem_cons_of_mem l hx))
      exact ⟨g1'.trans g1, g2'.trans g2⟩

/-- C9: `parseVendorsFromText` emits a vendor only after a line matching the
corporate-name pattern: every returned vendor's name matches that pattern,
and an input with no such line (whatever prices, URLs or ratings it holds)
parses to the empty list. -/
theorem claim_C9_vendor_requires_company_line (text : String) :
    (∀ v ∈ parseVendorsFromText text, matchesCompanyName v.name = true) ∧
    ((∀ line ∈ splitLines text, matchesCompanyName (jsTrim line) = false) →
      parseVendorsFromText text = []) := by
  constructor
  · obtain ⟨g1, g2⟩ :=
      foldl_lineStep_name_invariant (splitLines text) initParseState
        (by intro v hv; cases hv) (by intro n hn; cases hn)
    exact pushIfNamed_acc_names g1 g2
  · intro h
    obtain ⟨g1, g2⟩ := foldl_lineStep_no_name (splitLines text) initParseState h
    unfold parseVendorsFromText pushIfNamed
    rw [g2]
    exact g1

/-- Witness for C9 at a concrete input with a price, a URL and a rating but
no corporate-name line: the parser returns the empty list. -/
theorem claim_C9_vendor_requires_company_line_witness :
    parseVendorsFromText "$1,200\nhttps://shop.example/item\n4 / 5" = [] :=
  (claim_C9_vendor_requires_company_line "$1,200\nhttps://shop.example/item\n4 / 5").2
    (by decide)

/-- Counterexample to C2 as stated: in the input below the second line
matches the URL pattern, yet the returned vendor's website is unset — the
line was consumed by the dollar-amount pattern, which is tried first. -/
theorem claim_C2_counterexample :
    matchesUrl "$100 see https://acme.example" = true ∧
    parseVendorsFromText "Acme Inc\n$100 see https://acme.example" =
      [{ id := "vendor-1", name := "Acme Inc",
         price := some "$100 see https://acme.example", website := none,
         rating := none, deliveryTime := none, description := none }] := by
  constructor
  · decide
  · decide

/-- C2 (amended): each trimmed non-empty line is handled by the first
matching pattern in source order — a company-name line opens a new vendor
record (pushing any previously named one); a line with a dollar amount (and
not matching the name pattern) is stored as the current price; a line with an
http(s) URL but no dollar amount is stored as the website; and a line
matching the rating pattern but none of the earlier patterns gets its first
number parsed as the rating. -/
theorem claim_C2_vendor_parsing_dispatch (st : ParseState) (line : String)
    (ht : jsTrim line ≠ "") :
    (matchesCompanyName (jsTrim line) = true →
      (lineStep st line).current = { name := some (jsTrim line) } ∧
      (lineStep st line).acc = (pushIfNamed st).acc) ∧
    (matchesCompanyName (jsTrim line) = false → matchesPrice (jsTrim line) = true →
      (lineStep st line).current.price = some (jsTrim line)) ∧
    (matchesCompanyName (jsTrim line) = false → matchesPrice (jsTrim line) = false →
      matchesUrl (jsTrim line) = true →
      (lineStep st line).current.website = some (jsTrim line)) ∧
    (matchesCompanyName (jsTrim line) = false → matchesPrice (jsTrim line) = false →
      matchesUrl (jsTrim line) = false → matchesRating (jsTrim line) = true →
      ∀ q, firstNumber (jsTrim line).data = some q →
        (lineStep st line).current.rating = some q) := by
  refine ⟨?_, ?_, ?_, ?_⟩
  · intro hname
    simp [lineStep, ht, hname]
  · intro hname hprice
    simp [lineStep, ht, hname, hprice]
  · intro hname hprice hurl
    simp [lineStep, ht, hname, hprice, hurl]
  · intro hname hprice hurl hrating q hq
    simp [lineStep, ht, hname, hprice, hurl, hrating, hq]

/-- Witness for C2 (amended) at a concrete URL-only line from the initial
state: the line is stored as the website of the current record. -/
theorem claim_C2_vendor_parsing_dispatch_witness :
    (lineStep initParseState "https://acme.example/item").current.website =
      some "https://acme.example/item" :=
  (claim_C2_vendor_parsing_dispatch initParseState "https://acme.example/item"
      (by decide)).2.2.1 (by decide) (by decide) (by decide)

/-! ## Vendor parsing from web-search output
(src/frontend-new/src/components/steps/StepVendorSearch.tsx,
`parseVendorsFromOutput`)

The output text is split into sections at blank lines (`/\n\s*\n/`), each
section yields at most one vendor, and a vendor is pushed only when no
earlier vendor has the same name or the same non-empty purchase URL.
-/

/-- `us_vendor_verification` of a parsed vendor. -/
structure USVerification where
  is_us_vendor : Bool
  method : String
  business_address : String
  deriving DecidableEq, Repr

/-- A vendor as built by `parseVendorsFromOutput`. -/
structure OVendor where
  id : String
  vendor_name : String
  product_name : String
  model : String
  price : Nat
  currency : String
  availability : String
  ships_to : List String
  delivery_window_days : Nat
  purchase_url : String
  evidence_urls : List String
  sales_email : String
  notes : String
  us_vendor_verification : USVerification
  last_checked_utc : String
  isSelected : Bool
  deriving DecidableEq, Repr

/-- Group the lines of the text between blank lines; joined, trimmed and with
empty sections dropped this realises `text.split(/\n\s*\n/).map(s => s.trim()).filter(Boolean)`. -/
def sectionsOfLines : List String → List (List String)
  | [] => [[]]
  | l :: rest =>
      match sectionsOfLines rest with
      | s :: ss => if jsTrim l = "" then [] :: s :: ss else (l :: s) :: ss
      | [] => [[]]

/-- Join lines back with newlines. -/
def joinLines : List String → String
  | [] => ""
  | [l] => l
  | l :: rest => l ++ "\n" ++ joinLines rest

/-- The trimmed non-empty sections of the output text. -/
def splitSections (text : String) : List String :=
  ((sectionsOfLines (splitLines text)).map (fun ls => jsTrim (joinLines ls))).filter
    (fun s => s ≠ "")

/-- The leading-bullet class `[-•\d.\s]` of `replace(/^[-•\d.\s]+/, "")`. -/
def isBulletChar (c : Char) : Bool :=
  c == '-' || c == '•' || c.isDigit || c == '.' || jsWhitespace c

/-- `replace(/\s{2,}.*/, "")`: cut from the first run of two whitespace
characters to the end (the first line holds no line terminators). -/
def cutAtDoubleWs : List Char → List Char
  | a :: b :: rest =>
      if jsWhitespace a && jsWhitespace b then []
      else a :: cutAtDoubleWs (b :: rest)
  | l => l

/-- The candidate vendor name from the first line of a section. -/
def nameMatchOf (firstLine : String) : String :=
  jsTrim ⟨cutAtDoubleWs (firstLine.data.dropWhile isBulletChar)⟩

/-- The URL body class `[^\s)]` of the URL regex. -/
def isUrlBodyChar (c : Char) : Bool :=
  !jsWhitespace c && c != ')'

/-- JavaScript word character for the `\b` boundary. -/
def isWordChar (c : Char) : Bool :=
  c.isAlpha || c.isDigit || c == '_'

/-- `\b` holds between a final character and the following one (end of input
counts as a non-word character). -/
def wordBoundary (last : Char) (next : Option Char) : Bool :=
  isWordChar last != (match next with | some d => isWordChar d | none => false)

/-- Longest non-empty prefix of the (reversed) greedy URL body after which a
word boundary holds, mirroring the regex backtracking of `[^\s)]+\b`. -/
def trimToBoundaryRev : List Char → Option Char → Option (List Char)
  | [], _ => none
  | c :: rest, next =>
      if wordBoundary c next then some (c :: rest)
      else trimToBoundaryRev rest (some c)

/-- Scan, fuelled by the input length, for matches of
`/(https?:\/\/[^\s)]+)\b/g`; scanning resumes after each match. -/
def extractUrlsGo : Nat → List Char → List (List Char)
  | 0, _ => []
  | _, [] => []
  | fuel + 1, c :: rest =>
      let l := c :: rest
      let scheme : Option (List Char) :=
        if "https://".data.isPrefixOf l then some "https://".data
        else if "http://".data.isPrefixOf l then some "http://".data
        else none
      match scheme with
      | some sch =>
          let after := l.drop sch.length
          let body := after.takeWhile isUrlBodyChar
          match trimToBoundaryRev body.reverse none with
          | some prev =>
              (sch ++ prev.reverse) :: extractUrlsGo fuel (after.drop prev.length)
          | none => extractUrlsGo fuel rest
      | none => extractUrlsGo fuel rest

/-- All URLs matched in a section. -/
def extractUrls (s : String) : List String :=
  (extractUrlsGo s.data.length s.data).map fun l => ⟨l⟩

example : extractUrls "see https://a.example/x and (http://b.example)." =
    ["https://a.example/x", "http://b.example"] := by decide

/-- State of the section loop: the pushed vendors and the `id` counter. -/
structure OutState where
  results : List OVendor
  nextId : Nat
  deriving DecidableEq, Repr

/-- The duplicate test guarding the push:
`results.some(v => v.vendor_name === vendor.vendor_name || (v.purchase_url && v.purchase_url === vendor.purchase_url))`. -/
def dupCheck (results : List OVendor) (v : OVendor) : Bool :=
  results.any fun w =>
    w.vendor_name == v.vendor_name ||
      (w.purchase_url != "" && w.purchase_url == v.purchase_url)

/-- Processing of one section. -/
def sectionStep (modelName now : String) (st : OutState) (sec : String) : OutState :=
  if nameMatchOf ((splitLines sec).headD "") = "" ∧ extractUrls sec = [] then st
  else
    { results :=
        (if dupCheck st.results (sectionVendor modelName now st.nextId sec)
         then st.results
         else st.results ++ [sectionVendor modelName now st.nextId sec]),
      nextId := st.nextId + 1 }
where
  sectionVendor (modelName now : String) (id : Nat) (sec : String) : OVendor :=
    { id := "vendor-" ++ toString id
      vendor_name :=
        (if nameMatchOf ((splitLines sec).headD "") ≠ "" then
          nameMatchOf ((splitLines sec).headD "")
         else
           match (extractUrls sec).head? with
           | some u => if u ≠ "" then u else "Vendor " ++ toString (id + 1)
           | none => "Vendor " ++ toString (id + 1))
      product_name := modelName
      model := modelName
      price := 0
      currency := "USD"
      availability := "unknown"
      ships_to := ["USA"]
      delivery_window_days := 0
      purchase_url := (extractUrls sec).headD ""
      evidence_urls := extractUrls sec
      sales_email := ""
      notes := if 300 < sec.length then ⟨sec.data.take 300⟩ ++ "…" else sec
      us_vendor_verification := { is_us_vendor := true, method := "web_search",
                                  business_address := "" }
      last_checked_utc := now
      isSelected := false }

/-- `parseVendorsFromOutput text modelName` (the timestamp is passed
explicitly). -/
def parseVendorsFromOutput (text modelName now : String) : List OVendor :=
  ((splitSections text).foldl (sectionStep modelName now) ⟨[], 1⟩).results

/-- The pairwise distinctness relation of C8. -/
def DistinctVendor (a b : OVendor) : Prop :=
  a.vendor_name ≠ b.vendor_name ∧
    (a.purchase_url = b.purchase_url → a.purchase_url = "")

theorem dupCheck_false_distinct (results : List OVendor) (v : OVendor)
    (hdup : ¬ dupCheck results v = true) : ∀ w ∈ results, DistinctVendor w v := by
  intro w hw
  have hnot : ¬(w.vendor_name == v.vendor_name ||
      (w.purchase_url != "" && w.purchase_url == v.purchase_url)) = true := by
    intro hcontra
    exact hdup (List.any_eq_true.mpr ⟨w, hw, hcontra⟩)
  simp only [Bool.or_eq_true, Bool.and_eq_true, beq_iff_eq, bne_iff_ne,
    not_or, not_and] at hnot
  refine ⟨hnot.1, ?_⟩
  intro hurl
  by_contra hne
  exact hnot.2 hne hurl

theorem sectionStep_pairwise (modelName now : String) (st : OutState) (sec : String)
    (h : st.results.Pairwise DistinctVendor) :
    ((sectionStep modelName now st sec).results).Pairwise DistinctVendor := by
  unfold sectionStep
  split
  · exact h
  · dsimp only
    split
    · exact h
    case isFalse hdup =>
      rw [List.pairwise_append]
      refine ⟨h, List.pairwise_singleton _ _, ?_⟩
      intro w hw v hv
      rcases List.mem_singleton.mp hv with rfl
      exact dupCheck_false_distinct _ _ hdup w hw

theorem foldl_sectionStep_pairwise (modelName now : String) (secs : List String)
    (st : OutState) (h : st.results.Pairwise DistinctVendor) :
    ((secs.foldl (sectionStep modelName now) st).results).Pairwise DistinctVendor := by
  induction secs generalizing st with
  | nil => exact h
  | cons s ss ih => exact ih _ (sectionStep_pairwise modelName now st s h)

/-- C8: for every input text, the vendor list returned by
`parseVendorsFromOutput` contains no duplicates: no two returned vendors
share a `vendor_name`, and no two share a non-empty `purchase_url`. -/
theorem claim_C8_no_duplicate_vendors (text modelName now : String) :
    (parseVendorsFromOutput text modelName now).Pairwise DistinctVendor :=
  foldl_sectionStep_pairwise modelName now (splitSections text) ⟨[], 1⟩
    (List.Pairwise.nil)

/-! ## The vendor evaluator (src/unnamed/part_003, `evaluateVendors`)

`evaluateVendors` is an `async` React handler: it toggles `isEvaluating`,
awaits a 2-second timer, draws `Math.random()` repeatedly and stores the
evaluations in component state.  The embedding makes the effects explicit:
the random stream is a function `Nat → ℚ` consumed draw by draw, the clock is
a string parameter, and the handler is a transformer on the component state.
-/

/-- The fields of a selected vendor that `evaluateVendors` reads (JS
`undefined` is `none`; the empty string and `0` are falsy). -/
structure SourceVendor where
  vendor_name : Option String := none
  name : Option String := none
  product_name : Option String := none
  price : Option Nat := none
  purchase_url : Option String := none
  website : Option String := none
  deriving DecidableEq, Repr

/-- JS truthiness for an optional string: `undefined` and `""` are falsy. -/
def truthyStr : Option String → Option String
  | some s => if s = "" then none else some s
  | none => none

/-- JS `a || b` on an optional string with a string fallback. -/
def jsOrStr (a : Option String) (b : String) : String :=
  match truthyStr a with
  | some s => s
  | none => b

/-- JS truthiness for an optional number: `undefined` and `0` are falsy. -/
def truthyNum : Option Nat → Option Nat
  | some n => if n = 0 then none else some n
  | none => none

/-- `Math.floor` on a rational. -/
def jsFloor (q : ℚ) : ℤ := ⌊q⌋

/-- `s.toLowerCase().replace(/\s+/g, '')`. -/
def lowerNoWs (s : String) : String :=
  ⟨(s.data.map Char.toLower).filter fun c => !jsWhitespace c⟩

/-- One completeness scenario of the simulated evaluation. -/
structure Scenario where
  hasPrice : Bool
  hasStock : Bool
  hasDelivery : Bool
  hasContact : Bool
  deriving DecidableEq, Repr

/-- The four completeness scenarios cycled over by vendor index. -/
def scenarios : List Scenario :=
  [ { hasPrice := true, hasStock := true, hasDelivery := true, hasContact := true },
    { hasPrice := false, hasStock := true, hasDelivery := true, hasContact := true },
    { hasPrice := true, hasStock := false, hasDelivery := true, hasContact := false },
    { hasPrice := true, hasStock := true, hasDelivery := false, hasContact := true } ]

/-- `scenarios[index % scenarios.length]`. -/
def scenarioAt (i : Nat) : Scenario :=
  scenarios.getD (i % scenarios.length)
    { hasPrice := true, hasStock := true, hasDelivery := true, hasContact := true }

/-- `vendor.vendor_name?.toLowerCase().replace(/\s+/g, '')` interpolated into
a template: optional chaining on a missing name yields the string
`"undefined"`. -/
def vendorNameSlug (v : SourceVendor) : String :=
  match v.vendor_name with
  | some s => lowerNoWs s
  | none => "undefined"

/-- The completeness record built for the vendor at a given index: it depends
only on the index (note the source hardcodes `hasVendorIdentity: true` while
`missingFields` uses `scenario.hasContact`). -/
def completenessAt (i : Nat) : Completeness :=
  { hasPrice := (scenarioAt i).hasPrice
    hasStockOrLead := (scenarioAt i).hasStock
    hasDeliveryToTarget := (scenarioAt i).hasDelivery
    hasVendorIdentity := true
    overall := overallOf (missingFieldsOf (scenarioAt i).hasPrice
      (scenarioAt i).hasStock (scenarioAt i).hasDelivery (scenarioAt i).hasContact)
    missingFields := missingFieldsOf (scenarioAt i).hasPrice
      (scenarioAt i).hasStock (scenarioAt i).hasDelivery (scenarioAt i).hasContact }

/-- Evaluation of one vendor: `rand` is the `Math.random()` stream, `k` the
index of the next draw; draws are consumed in source order (price value,
in-stock, lead time, promise days, score, four flags), each one only when its
branch executes.  Returns the evaluation and the next draw index. -/
def evaluateVendorAt (productName now : String) (rand : Nat → ℚ) (i : Nat)
    (v : SourceVendor) (k : Nat) : VendorEvaluation × Nat :=
  let sc := scenarioAt i
  let priceStep : Option PriceInfo × Nat :=
    if sc.hasPrice then
      match truthyNum v.price with
      | some p => (some { value := p, currency := "USD",
                          sourceText := "Found on product page" }, k)
      | none => (some { value := (jsFloor (rand k * 5000)).toNat + 1000,
                        currency := "USD",
                        sourceText := "Found on product page" }, k + 1)
    else (none, k)
  let k1 := priceStep.2
  let availStep : Option AvailabilityInfo × Nat :=
    if sc.hasStock then
      (some { inStock := rand k1 > (0.3 : ℚ),
              leadTimeDays := (jsFloor (rand (k1 + 1) * 30)).toNat + 1,
              sourceText := "Stock status confirmed" }, k1 + 2)
    else (none, k1)
  let k2 := availStep.2
  let deliveryStep : Option DeliveryInfo × Nat :=
    if sc.hasDelivery then
      (some { toLocation := "Wichita, KS",
              promiseDays := (jsFloor (rand k2 * 30)).toNat + 1,
              terms := "Standard shipping",
              sourceText := "Delivery promise verified" }, k2 + 1)
    else (none, k2)
  let k3 := deliveryStep.2
  ({ vendorName := jsOrStr v.vendor_name (jsOrStr v.name ("Vendor " ++ toString (i + 1)))
     productTitle := jsOrStr v.product_name productName
     price := priceStep.1
     availability := availStep.1
     delivery := deliveryStep.1
     warranty := "1 year manufacturer warranty"
     link := jsOrStr v.purchase_url (jsOrStr v.website "#")
     domain := jsOrStr (some (vendorNameSlug v ++ ".com")) "vendor.com"
     contact :=
       if sc.hasContact then
         some { email := "sales@" ++ vendorNameSlug v ++ ".com",
                phone := "(555) 123-4567" }
       else none
     evidence :=
       [ { label := "Price",
           snippet := if sc.hasPrice then
               "$" ++ (match truthyNum v.price with
                       | some p => toString p
                       | none => "1,200")
             else "Not found" },
         { label := "Stock",
           snippet := if sc.hasStock then "In stock" else "Lead time unknown" },
         { label := "Delivery",
           snippet := if sc.hasDelivery then "Ships to Wichita"
             else "Delivery not confirmed" },
         { label := "Contact",
           snippet := if sc.hasContact then "sales@vendor.com"
             else "Contact info missing" } ]
     lastCheckedAt := now
     score := (jsFloor (rand k3 * 40)).toNat + 60
     completeness := completenessAt i
     flags := { isOfficialOEM := rand (k3 + 1) > (0.7 : ℚ),
                isDistributor := rand (k3 + 2) > (0.5 : ℚ),
                isMarketplace := rand (k3 + 3) > (0.8 : ℚ),
                possibleMismatch := rand (k3 + 4) > (0.9 : ℚ) } },
   k3 + 5)

/-- The indexed map over the selected vendors, threading the draw index. -/
def evaluateVendorsGo (productName now : String) (rand : Nat → ℚ) :
    Nat → Nat → List SourceVendor → List VendorEvaluation
  | _, _, [] => []
  | i, k, v :: rest =>
      (evaluateVendorAt productName now rand i v k).1 ::
        evaluateVendorsGo productName now rand (i + 1)
          (evaluateVendorAt productName now rand i v k).2 rest

/-- The evaluations produced by one run of `evaluateVendors`. -/
def evaluateVendors (vendors : List SourceVendor) (productName now : String)
    (rand : Nat → ℚ) : List VendorEvaluation :=
  evaluateVendorsGo productName now rand 0 0 vendors

/-- The component state of `StepCARTEnhanced` touched by the evaluator. -/
structure CartState where
  evaluatedVendors : List VendorEvaluation
  isEvaluating : Bool
  deriving DecidableEq, Repr

/-- Initial component state. -/
def initCartState : CartState := { evaluatedVendors := [], isEvaluating := false }

/-- The net effect of the `evaluateVendors` handler on the component state
(after `setIsEvaluating(true)`, the awaited timer, `setEvaluatedVendors` and
`setIsEvaluating(false)`). -/
def evaluateVendorsHandler (selectedVendors : List SourceVendor)
    (productName now : String) (rand : Nat → ℚ) (st : CartState) : CartState :=
  { st with
    isEvaluating := false,
    evaluatedVendors := evaluateVendors selectedVendors productName now rand }

theorem evaluateVendorAt_completeness (productName now : String) (rand : Nat → ℚ)
    (i : Nat) (v : SourceVendor) (k : Nat) :
    (evaluateVendorAt productName now rand i v k).1.completeness = completenessAt i := rfl

theorem evaluateVendorsGo_map_completeness (productName now1 now2 : String)
    (r1 r2 : Nat → ℚ) (vs : List SourceVendor) :
    ∀ i k1 k2,
      (evaluateVendorsGo productName now1 r1 i k1 vs).map VendorEvaluation.completeness =
        (evaluateVendorsGo productName now2 r2 i k2 vs).map VendorEvaluation.completeness := by
  induction vs with
  | nil => intro i k1 k2; rfl
  | cons v rest ih =>
      intro i k1 k2
      simp only [evaluateVendorsGo, List.map_cons]
      rw [evaluateVendorAt_completeness, evaluateVendorAt_completeness]
      exact congrArg _ (ih (i + 1) _ _)

theorem any_incomplete_map (l : List VendorEvaluation) :
    ((l.map VendorEvaluation.completeness).any fun c => c.overall != "complete") =
      (l.any fun v => v.completeness.overall != "complete") := by
  induction l with
  | nil => rfl
  | cons a t ih => simp only [List.map_cons, List.any_cons, ih]

theorem pathRecommendation_of_map_completeness {e1 e2 : List VendorEvaluation}
    (h : e1.map VendorEvaluation.completeness = e2.map VendorEvaluation.completeness) :
    pathRecommendation e1 = pathRecommendation e2 := by
  have hlen : e1.length = e2.length := by
    have := congrArg List.length h
    simpa using this
  have hany : (e1.any fun v => v.completeness.overall != "complete") =
      (e2.any fun v => v.completeness.overall != "complete") := by
    rw [← any_incomplete_map, ← any_incomplete_map, h]
  unfold pathRecommendation
  rw [hlen, hany]

/-- C6 (amended): the decision-relevant outputs of the evaluator are
deterministic — two runs on the same cart, whatever their random draws, agree
on every vendor's completeness checklist and on the recommended path — but
the handler itself is a state transformer whose full evaluations depend on
the random stream. -/
theorem claim_C6_decision_determinism (vendors : List SourceVendor)
    (productName now1 now2 : String) (r1 r2 : Nat → ℚ) (st1 st2 : CartState) :
    ((evaluateVendorsHandler vendors productName now1 r1 st1).evaluatedVendors.map
        VendorEvaluation.completeness =
      (evaluateVendorsHandler vendors productName now2 r2 st2).evaluatedVendors.map
        VendorEvaluation.completeness) ∧
    (pathRecommendation
        (evaluateVendorsHandler vendors productName now1 r1 st1).evaluatedVendors =
      pathRecommendation
        (evaluateVendorsHandler vendors productName now2 r2 st2).evaluatedVendors) := by
  have h : (evaluateVendorsHandler vendors productName now1 r1 st1).evaluatedVendors.map
      VendorEvaluation.completeness =
      (evaluateVendorsHandler vendors productName now2 r2 st2).evaluatedVendors.map
        VendorEvaluation.completeness := by
    unfold evaluateVendorsHandler evaluateVendors
    exact evaluateVendorsGo_map_completeness productName now1 now2 r1 r2 vendors 0 0 0
  exact ⟨h, pathRecommendation_of_map_completeness h⟩

/-- A concrete selected vendor for instantiating the evaluator. -/
def cartVendor : SourceVendor :=
  { vendor_name := some "Acme Networks", price := some 1200,
    purchase_url := some "https://acme.example/item" }

/-- A random stream drawing `0` forever. -/
def randLo : Nat → ℚ := fun _ => 0

/-- A random stream drawing `0.9` forever. -/
def randHi : Nat → ℚ := fun _ => (0.9 : ℚ)

theorem evaluateVendors_randLo_inStock :
    (evaluateVendors [cartVendor] "Network Switch" "T0" randLo).map
      (fun e => e.availability.map AvailabilityInfo.inStock) = [some false] := by
  simp only [evaluateVendors, evaluateVendorsGo, evaluateVendorAt, scenarioAt,
    scenarios, truthyNum, cartVendor, randLo, List.map_cons, List.map_nil]
  norm_num

theorem evaluateVendors_randHi_inStock :
    (evaluateVendors [cartVendor] "Network Switch" "T0" randHi).map
      (fun e => e.availability.map AvailabilityInfo.inStock) = [some true] := by
  simp only [evaluateVendors, evaluateVendorsGo, evaluateVendorAt, scenarioAt,
    scenarios, truthyNum, cartVendor, randHi, List.map_cons, List.map_nil]
  norm_num

/-- Counterexample to C6 as stated: the evaluator is not a pure, synchronous,
stateless function of the cart — one run mutates the component state (the
stored evaluations change), and two runs on the same one-vendor cart that
differ only in their random draws store different evaluations (here the
simulated in-stock detail flips). -/
theorem claim_C6_counterexample :
    (evaluateVendorsHandler [cartVendor] "Network Switch" "T0" randLo
        initCartState).evaluatedVendors ≠ initCartState.evaluatedVendors ∧
    evaluateVendorsHandler [cartVendor] "Network Switch" "T0" randLo initCartState ≠
      evaluateVendorsHandler [cartVendor] "Network Switch" "T0" randHi initCartState := by
  constructor
  · intro heq
    have := evaluateVendors_randLo_inStock
    rw [show (evaluateVendors [cartVendor] "Network Switch" "T0" randLo) =
        (evaluateVendorsHandler [cartVendor] "Network Switch" "T0" randLo
          initCartState).evaluatedVendors from rfl, heq] at this
    exact absurd this (by decide)
  · intro heq
    have h1 := evaluateVendors_randLo_inStock
    have h2 := evaluateVendors_randHi_inStock
    have hmap := congrArg
      (fun st : CartState =>
        st.evaluatedVendors.map fun e => e.availability.map AvailabilityInfo.inStock)
      heq
    simp only [evaluateVendorsHandler] at hmap
    rw [h1, h2] at hmap
    exact absurd hmap (by decide)

/-! ## Browser-global state touched by the steps
(src/frontend-new/src/components/steps/StepVendorSearch.tsx, the
variant-change `useEffect` at lines 269-283)

  const currentId = selectedVariants.length > 0 ? (selectedVariants[0].id || selectedVariants[0].title) : null;
  const prevId = (window as any).__kiba_prev_variant_id || null;
  if (currentId && prevId && currentId !== prevId) {
    try { sessionStorage.removeItem('vendorSearch.autoRanOnce'); } catch {}
    ... reset six pieces of component state ...
  }
  (window as any).__kiba_prev_variant_id = currentId;
-/

/-- The fields of a selected variant the effect reads. -/
structure VariantRef where
  id : String
  title : String
  deriving DecidableEq, Repr

/-- Browser state outside the component: the `window` global and the
sessionStorage key used by the step. -/
structure BrowserEnv where
  kibaPrevVariantId : Option String
  autoRanOnce : Option String
  deriving DecidableEq, Repr

/-- One search batch held in component state. -/
structure VendorBatch where
  id : Nat
  query : String
  userNotes : Option String
  results : List OVendor
  createdAt : String
  hiddenFiltered : Option Nat
  deriving DecidableEq, Repr

/-- The component-local state the effect resets. -/
structure VSLocalState where
  batches : List VendorBatch
  activeBatchId : Option Nat
  selectedVendorsGlobal : List OVendor
  goodLinkSet : List String
  autoRan : Bool
  searchOutputText : String
  deriving DecidableEq, Repr

/-- The cleared component state set when the variant changed. -/
def clearedVSState : VSLocalState :=
  { batches := [], activeBatchId := none, selectedVendorsGlobal := [],
    goodLinkSet := [], autoRan := false, searchOutputText := "" }

/-- `currentId`: the first variant's id, or its title when the id is empty,
`null` when no variant is selected. -/
def currentIdOf (selectedVariants : List VariantRef) : Option String :=
  match selectedVariants.head? with
  | some v => some (jsOrStr (some v.id) v.title)
  | none => none

/-- The guard `currentId && prevId && currentId !== prevId` (`""` is falsy;
the stored global is normalised by `|| null`). -/
def variantChanged (selectedVariants : List VariantRef) (env : BrowserEnv) : Bool :=
  match truthyStr (currentIdOf selectedVariants), truthyStr env.kibaPrevVariantId with
  | some c, some p => c != p
  | _, _ => false

/-- The net effect of the variant-change `useEffect` on the component state
and the browser environment. -/
def variantChangeEffect (selectedVariants : List VariantRef)
    (st : VSLocalState) (env : BrowserEnv) : VSLocalState × BrowserEnv :=
  ((if variantChanged selectedVariants env then clearedVSState else st),
   { kibaPrevVariantId := currentIdOf selectedVariants,
     autoRanOnce :=
       if variantChanged selectedVariants env then none else env.autoRanOnce })

/-- Counterexample to C7 as stated: running the variant-change effect of
`StepVendorSearch` with a newly selected variant changes state outside the
component — the `window` global `__kiba_prev_variant_id` is overwritten and
the sessionStorage key `vendorSearch.autoRanOnce` is removed. -/
theorem claim_C7_counterexample :
    (variantChangeEffect [{ id := "variant-b", title := "B" }] clearedVSState
        { kibaPrevVariantId := some "variant-a", autoRanOnce := some "1" }).2 ≠
      { kibaPrevVariantId := some "variant-a", autoRanOnce := some "1" } := by
  decide

/-- C7 (amended): the client does share mutable state beyond component-local
view state, but only through these browser globals: the variant-change effect
always rewrites the `window` global to the current variant id; exactly when a
truthy previous id differs from a truthy current id it clears the
sessionStorage auto-run flag and resets the six pieces of component state,
and otherwise it leaves the component state and the sessionStorage key
unchanged. -/
theorem claim_C7_browser_state_frame (selectedVariants : List VariantRef)
    (st : VSLocalState) (env : BrowserEnv) :
    ((variantChangeEffect selectedVariants st env).2.kibaPrevVariantId =
      currentIdOf selectedVariants) ∧
    (variantChanged selectedVariants env = true →
      (variantChangeEffect selectedVariants st env).1 = clearedVSState ∧
      (variantChangeEffect selectedVariants st env).2.autoRanOnce = none) ∧
    (variantChanged selectedVariants env = false →
      (variantChangeEffect selectedVariants st env).1 = st ∧
      (variantChangeEffect selectedVariants st env).2.autoRanOnce = env.autoRanOnce) := by
  refine ⟨rfl, ?_, ?_⟩
  · intro h
    simp [variantChangeEffect, h]
  · intro h
    simp [variantChangeEffect, h]

/-- Witness for C7 (amended) at a concrete changed variant and at a concrete
unchanged one. -/
theorem claim_C7_browser_state_frame_witness :
    ((variantChangeEffect [{ id := "variant-b", title := "B" }] clearedVSState
        { kibaPrevVariantId := some "variant-a", autoRanOnce := some "1" }).1 =
      clearedVSState ∧
     (variantChangeEffect [{ id := "variant-b", title := "B" }] clearedVSState
        { kibaPrevVariantId := some "variant-a", autoRanOnce := some "1" }).2.autoRanOnce =
      none) ∧
    ((variantChangeEffect [{ id := "variant-a", title := "A" }] clearedVSState
        { kibaPrevVariantId := some "variant-a", autoRanOnce := some "1" }).1 =
      clearedVSState ∧
     (variantChangeEffect [{ id := "variant-a", title := "A" }] clearedVSState
        { kibaPrevVariantId := some "variant-a", autoRanOnce := some "1" }).2.autoRanOnce =
      some "1") :=
  ⟨(claim_C7_browser_state_frame _ _ _).2.1 (by decide),
   (claim_C7_browser_state_frame _ _ _).2.2 (by decide)⟩

end KIBA
